import Mathlib

/-!
Verification development for the Kisan-DePIN zero-knowledge compliance core.

The embedding covers:
* `verify_compliance.circom` — the statement circuit (status equality,
  coordinate range checks via circomlib `LessThan`, Poseidon(5) commitment),
  modelled as a satisfaction predicate over the BN128 scalar field with the
  Poseidon permutation kept abstract as a function parameter;
* `generate_mock_proof.js` — the mock proving backend shipped in the repo
  (status gate, SHA-256 commitment over the joined witness fields, random
  filler proof and verification-key bytes, self-recomputing verification),
  with SHA-256 abstract and the randomness stream an explicit parameter;
* the replay ledger (ProofRecord PDA), modelled from the spec because the
  Solana program source is not part of the repository snapshot;
* the frontend submission handler `CapturePreview.handleSubmit` and the
  hard-coded mock compliance result.
-/

namespace KisanDepin

/-- The BN128 (alt_bn128 / BN254) scalar-field modulus used by circom 2.x
circuits compiled for curve bn128 (`pragma circom 2.1.0`, snarkjs bn128). -/
def p : Nat := 21888242871839275222246405745257275088548364400416034343698204186575808495617

/-- A full assignment to the signals of template `VerifyCompliance` in
`verify_compliance.circom`: five private inputs, one public input, one
public output.  Signals are field elements, represented canonically as
naturals below `p`. -/
structure CircuitAssignment where
  complianceStatusHash : Nat
  gpsLatitude : Nat
  gpsLongitude : Nat
  farmerWalletHash : Nat
  nonce : Nat
  expectedComplianceHash : Nat
  complianceCommitment : Nat
deriving Repr, DecidableEq

/-- Field subtraction `a - b` on canonical representatives (used for the
`statusCheck <== complianceStatusHash - expectedComplianceHash` signal). -/
def fieldSub (a b : Nat) : Nat := (a % p + (p - b % p)) % p

/-- Satisfiability of the circomlib `LessThan(n)` gadget with output
constrained to 1, applied to canonical field inputs `a < b`:
`LessThan(n)` feeds `in[0] + 2^n - in[1]` to `Num2Bits(n+1)` and outputs
`1 - bit n`.  `Num2Bits(n+1)` is satisfiable exactly when the canonical
representative of its input is below `2^(n+1)`, and the output is 1 exactly
when bit `n` is clear, so the whole constraint group is satisfiable exactly
when the canonical representative of `a + 2^n - b` (mod p) is below `2^n`. -/
def lessThanOutIsOne (n a b : Nat) : Bool :=
  (a % p + (2 ^ n + (p - b % p))) % p < 2 ^ n

/-- The latitude range-check constraint group of the circuit:
`latCheck = LessThan(21)` with `in[0] = shiftedLat`, `in[1] = 1800001`,
`latCheck.out === 1`, where `shiftedLat <== gpsLatitude + 900000`. -/
def latRangeOk (gpsLatitude : Nat) : Bool :=
  lessThanOutIsOne 21 ((gpsLatitude + 900000) % p) 1800001

/-- The longitude range-check constraint group of the circuit:
`lngCheck = LessThan(22)` with `in[0] = shiftedLng`, `in[1] = 3600001`,
`lngCheck.out === 1`, where `shiftedLng <== gpsLongitude + 1800000`. -/
def lngRangeOk (gpsLongitude : Nat) : Bool :=
  lessThanOutIsOne 22 ((gpsLongitude + 1800000) % p) 3600001

/-- Satisfaction of every constraint of `VerifyCompliance`, with the
Poseidon(5) sponge kept abstract as a parameter `H` (Poseidon is a fixed
deterministic arithmetic circuit: for any five inputs its constraint block
is satisfiable with a unique output, here `H` applied to the inputs):
1. `statusCheck <== complianceStatusHash - expectedComplianceHash;
    statusCheck === 0`;
2. `latCheck.out === 1` and `lngCheck.out === 1` (range checks);
3. `complianceCommitment <== hasher.out` with
   `hasher = Poseidon(5)` over the five private inputs in order. -/
def circuitSat (H : Nat → Nat → Nat → Nat → Nat → Nat) (a : CircuitAssignment) : Bool :=
  (fieldSub a.complianceStatusHash a.expectedComplianceHash == 0)
  && latRangeOk a.gpsLatitude
  && lngRangeOk a.gpsLongitude
  && (a.complianceCommitment
      == H a.complianceStatusHash a.gpsLatitude a.gpsLongitude a.farmerWalletHash a.nonce % p)

/-- Canonical field encoding of a signed scaled coordinate (`x mod p`,
with negatives wrapping to `p - |x|`), as produced by circom witness
generation from a signed integer input. -/
def toField (x : Int) : Nat := (x % (p : Int)).toNat

example : toField 910000 = 910000 := by decide
example : toField (-910000) = p - 910000 := by decide

example : latRangeOk 899999 = true := by decide
example : latRangeOk 910000 = false := by decide
example : latRangeOk (toField (-900000)) = true := by decide
-- the wraparound gap of the unconstrained LessThan input:
example : latRangeOk (toField (-900001)) = true := by decide
example : latRangeOk (toField (-910000)) = true := by decide
example : latRangeOk (toField (-1197151)) = true := by decide
example : latRangeOk (toField (-1197152)) = false := by decide
example : lngRangeOk 1800000 = true := by decide
example : lngRangeOk 1800001 = false := by decide
example : lngRangeOk (toField (-1800000)) = true := by decide

/-! ## Mock proving backend (`generate_mock_proof.js`)

The script reads `input.json` (all six signal values as strings), gates on
`input.complianceStatusHash === input.expectedComplianceHash` (exiting with
status 1 on mismatch, before any artifact is produced), computes
`commitment = sha256(join("|", [statusHash, lat, lng, walletHash, nonce]))`,
fills the Groth16 proof shape and the verification key with
`crypto.randomBytes(32)` hex strings, publishes
`publicSignals = [commitment, expectedComplianceHash]`, and finally sets
`verified = (sha256(commitmentInput) === commitment)`.

SHA-256 is abstracted as a `String → String` parameter and the stream of
`randomBytes` hex strings as a `Nat → String` parameter. -/

/-- The input record parsed from `input.json` by `generate_mock_proof.js`;
every field is consumed as a string (`substring`, `join`). -/
structure MockInput where
  complianceStatusHash : String
  gpsLatitude : String
  gpsLongitude : String
  farmerWalletHash : String
  nonce : String
  expectedComplianceHash : String
deriving Repr, DecidableEq

/-- The sole prover-side failure of the mock backend: the compliance-hash
mismatch path (`process.exit(1)` after "PROOF GENERATION FAILED"). -/
inductive MockError where
  | ConstraintViolation
deriving Repr, DecidableEq

/-- The mock Groth16 proof object (`mockProof` in the script): random
filler coordinates plus the protocol and curve tags. -/
structure MockProof where
  pi_a : List String
  pi_b : List (List String)
  pi_c : List String
  protocol : String
  curve : String
deriving Repr, DecidableEq

/-- The mock verification key (`verificationKey` in the script): random
filler group elements plus protocol metadata. -/
structure MockVKey where
  protocol : String
  curve : String
  nPublic : Nat
  vk_alpha_1 : List String
  vk_beta_2 : List (List String)
  vk_gamma_2 : List (List String)
  vk_delta_2 : List (List String)
  vkIC : List (List String)
deriving Repr, DecidableEq

/-- The `commitmentInput` string: the five private witness fields joined with `"|"`,
in the exact order of the script (statusHash, lat, lng, walletHash, nonce).
Note `expectedComplianceHash` is not part of the preimage. -/
def commitmentInput (i : MockInput) : String :=
  String.intercalate "|" [i.complianceStatusHash, i.gpsLatitude, i.gpsLongitude,
    i.farmerWalletHash, i.nonce]

/-- The mock commitment: `sha256` (abstract parameter) of `commitmentInput`. -/
def mockCommitment (sha256 : String → String) (i : MockInput) : String :=
  sha256 (commitmentInput i)

/-- The `mockProof` object as built in step 3, drawing eight 32-byte hex strings from
the randomness stream in order. -/
def mkMockProof (rng : Nat → String) : MockProof :=
  { pi_a := [rng 0, rng 1, "1"]
    pi_b := [[rng 2, rng 3], [rng 4, rng 5], ["1", "0"]]
    pi_c := [rng 6, rng 7, "1"]
    protocol := "groth16"
    curve := "bn128" }

/-- The `verificationKey` object as built after the proof, drawing the next twenty-two
random hex strings from the stream. -/
def mkMockVKey (rng : Nat → String) : MockVKey :=
  { protocol := "groth16"
    curve := "bn128"
    nPublic := 2
    vk_alpha_1 := [rng 8, rng 9, "1"]
    vk_beta_2 := [[rng 10, rng 11], [rng 12, rng 13], ["1", "0"]]
    vk_gamma_2 := [[rng 14, rng 15], [rng 16, rng 17], ["1", "0"]]
    vk_delta_2 := [[rng 18, rng 19], [rng 20, rng 21], ["1", "0"]]
    vkIC := [[rng 22, rng 23, "1"], [rng 24, rng 25, "1"], [rng 26, rng 27, "1"]] }

/-- The artifacts of one successful run of `generate_mock_proof.js`:
proof.json, public.json, verification_key.json, the commitment, and the
`verified` flag printed by step 4. -/
structure MockRun where
  proof : MockProof
  publicSignals : List String
  vkey : MockVKey
  commitment : String
  verified : Bool
deriving Repr, DecidableEq

/-- The whole `generate_mock_proof.js` run: status gate (exit 1 on
mismatch), commitment, random proof and key, public signals
`[commitment, expectedComplianceHash]`, and the step 4 check
`verified = (recomputedCommitment === commitment)` where
`recomputedCommitment` hashes the same `commitmentInput` again. -/
def generateMockProof (sha256 : String → String) (rng : Nat → String)
    (input : MockInput) : Except MockError MockRun :=
  if input.complianceStatusHash = input.expectedComplianceHash then
    let commitment := sha256 (commitmentInput input)
    let proof := mkMockProof rng
    let vkey := mkMockVKey rng
    let publicSignals := [commitment, input.expectedComplianceHash]
    let recomputedCommitment := sha256 (commitmentInput input)
    Except.ok
      { proof := proof
        publicSignals := publicSignals
        vkey := vkey
        commitment := commitment
        verified := decide (recomputedCommitment = commitment) }
  else
    Except.error MockError.ConstraintViolation

/-- Step 4 of the mock backend as a standalone verifier: the proof, the
public-signal list and the verification key are in scope but unread; the
check recomputes the commitment from the witness input and compares it to
the submitted commitment. -/
def mockVerify (sha256 : String → String) (input : MockInput)
    (prf : MockProof) (publicSignals : List String) (vk : MockVKey)
    (commitment : String) : Bool :=
  decide (sha256 (commitmentInput input) = commitment)

/-! ## Replay ledger -/

/-- Result of a redemption attempt on the replay ledger. -/
inductive RedeemResult where
  | Ok
  | AlreadyRedeemed
deriving Repr, DecidableEq

/-- Modelled from the spec: the on-chain replay ledger backing the
`ProofRecord` PDA (`seeds = [b"proof", commitment]`) of the Solana program
`programs/kisan_depin/src/lib.rs`, whose source is not part of the
repository snapshot (DEPLOYMENT.md documents only its instruction flow).
Per spec section 4.5, the per-commitment state machine is
`Unseen -> Redeemed` (terminal), and `redeem` is an atomic
insert-if-absent: it returns `Ok` and records the commitment when the
commitment is unseen, and returns `AlreadyRedeemed` leaving the ledger
unchanged when a record already exists.  The ledger state is the set of
already-redeemed commitments, kept as a list. -/
def redeem (ledger : List String) (commitment : String) :
    RedeemResult × List String :=
  if commitment ∈ ledger then
    (RedeemResult.AlreadyRedeemed, ledger)
  else
    (RedeemResult.Ok, commitment :: ledger)

/-! ## Frontend submission handler (`CapturePreview.handleSubmit`) -/

/-- The compliance status union of `mock-data.ts`
(`"COMPLIANT" | "VIOLATION" | "PENDING" | null`). -/
inductive ComplianceStatus where
  | COMPLIANT
  | VIOLATION
  | PENDING
  | null
deriving Repr, DecidableEq

/-- The `details` record of a `ComplianceResult`; the numeric fields are
exact decimals, modelled as rationals. -/
structure ComplianceDetails where
  burnt_soil_percentage : Rat
  tilled_soil_percentage : Rat
  vegetation_index : Rat
  thermal_anomaly : Bool
deriving Repr, DecidableEq

/-- The `ComplianceResult` interface of `mock-data.ts`. -/
structure ComplianceResult where
  status : ComplianceStatus
  confidence : Rat
  timestamp : String
  details : ComplianceDetails
deriving Repr, DecidableEq

/-- The constant `MOCK_COMPLIANCE_RESULT` from `mock-data.ts` (its timestamp is
`new Date().toISOString()` at module load, an explicit parameter here). -/
def mockComplianceResult (now : String) : ComplianceResult :=
  { status := ComplianceStatus.COMPLIANT
    confidence := 94 / 100
    timestamp := now
    details :=
      { burnt_soil_percentage := 21 / 10
        tilled_soil_percentage := 894 / 10
        vegetation_index := 72 / 100
        thermal_anomaly := false } }

/-- The displayed result set by `handleSubmit` in `CapturePreview`:
with `USE_MOCK` it shows `MOCK_COMPLIANCE_RESULT`; otherwise it shows the
parsed JSON response of the backend, except that any thrown error (network
failure, non-JSON body, ...) is caught and the handler falls back to
`MOCK_COMPLIANCE_RESULT`. -/
def handleSubmit (now : String) (useMock : Bool)
    (backend : Except Unit ComplianceResult) : ComplianceResult :=
  if useMock then
    mockComplianceResult now
  else
    match backend with
    | Except.ok json => json
    | Except.error _ => mockComplianceResult now

/-! ## Circuit signal visibility (`component main {public [expectedComplianceHash]}`) -/

/-- The signals of template `VerifyCompliance`. -/
inductive Signal where
  | complianceStatusHash
  | gpsLatitude
  | gpsLongitude
  | farmerWalletHash
  | nonce
  | expectedComplianceHash
  | complianceCommitment
deriving Repr, DecidableEq

/-- The five `signal input` declarations not listed in the `public` clause
of the main component: private witness signals. -/
def privateInputSignals : List Signal :=
  [Signal.complianceStatusHash, Signal.gpsLatitude, Signal.gpsLongitude,
   Signal.farmerWalletHash, Signal.nonce]

/-- The output signals of the circuit: the single `signal output
complianceCommitment`. -/
def outputSignals : List Signal := [Signal.complianceCommitment]

/-- The public signals of the compiled circuit, in snarkjs order (outputs
first, then the inputs of the `{public [...]}` clause), matching the
`publicSignals` array written by the mock backend:
`[commitment, expectedComplianceHash]`. -/
def publicSignals : List Signal :=
  outputSignals ++ [Signal.expectedComplianceHash]

/-- Rendering of a circuit assignment to the string-valued `input.json`
record the mock backend consumes (decimal rendering of the canonical field
elements). -/
def mockInputOf (a : CircuitAssignment) : MockInput :=
  { complianceStatusHash := toString a.complianceStatusHash
    gpsLatitude := toString a.gpsLatitude
    gpsLongitude := toString a.gpsLongitude
    farmerWalletHash := toString a.farmerWalletHash
    nonce := toString a.nonce
    expectedComplianceHash := toString a.expectedComplianceHash }

/-! ## Helper lemmas -/

lemma p_pos : 0 < p := by unfold p; omega

lemma fieldSub_eq_zero_iff {a b : Nat} (ha : a < p) (hb : b < p) :
    fieldSub a b = 0 ↔ a = b := by
  have hp := p_pos
  unfold fieldSub
  rw [Nat.mod_eq_of_lt ha, Nat.mod_eq_of_lt hb]
  constructor
  · intro h
    rcases Nat.lt_or_ge a b with hab | hab
    · have hlt : a + (p - b) < p := by omega
      rw [Nat.mod_eq_of_lt hlt] at h
      omega
    · have hsplit : a + (p - b) = (a - b) + p := by omega
      have hlt2 : a - b < p := by omega
      rw [hsplit, Nat.add_mod_right, Nat.mod_eq_of_lt hlt2] at h
      omega
  · intro h
    subst h
    have hfull : a + (p - a) = p := by omega
    rw [hfull, Nat.mod_self]

lemma circuitSat_status {H : Nat → Nat → Nat → Nat → Nat → Nat}
    {a : CircuitAssignment} (hsat : circuitSat H a = true)
    (h1 : a.complianceStatusHash < p) (h2 : a.expectedComplianceHash < p) :
    a.complianceStatusHash = a.expectedComplianceHash := by
  unfold circuitSat at hsat
  simp only [Bool.and_eq_true, beq_iff_eq] at hsat
  exact (fieldSub_eq_zero_iff h1 h2).mp hsat.1.1.1

lemma generateMockProof_ok_commitment {sha256 : String → String}
    {rng : Nat → String} {i : MockInput} {run : MockRun}
    (h : generateMockProof sha256 rng i = Except.ok run) :
    run.commitment = mockCommitment sha256 i := by
  unfold generateMockProof at h
  split at h
  · cases h
    rfl
  · cases h

/-! ## Claim theorems -/

/-- C1: for every witness whose `complianceStatusHash` differs from the
public `expectedComplianceHash`, proof generation fails with the
constraint-violation exit and produces no proof (so in particular no proof
that could later verify true); and in the circuit, a canonical assignment
with differing status hashes violates `statusCheck === 0`, so no such
assignment satisfies the constraint system. -/
theorem prove_fails_on_status_mismatch :
    (∀ (sha256 : String → String) (rng : Nat → String) (i : MockInput),
        i.complianceStatusHash ≠ i.expectedComplianceHash →
        generateMockProof sha256 rng i = Except.error MockError.ConstraintViolation)
    ∧ (∀ (H : Nat → Nat → Nat → Nat → Nat → Nat) (a : CircuitAssignment),
        a.complianceStatusHash < p → a.expectedComplianceHash < p →
        a.complianceStatusHash ≠ a.expectedComplianceHash →
        circuitSat H a = false) := by
  constructor
  · intro sha256 rng i h
    unfold generateMockProof
    rw [if_neg h]
  · intro H a h1 h2 hne
    have hz : fieldSub a.complianceStatusHash a.expectedComplianceHash ≠ 0 :=
      fun hc => hne ((fieldSub_eq_zero_iff h1 h2).mp hc)
    unfold circuitSat
    simp [hz]

theorem prove_fails_on_status_mismatch_witness :
    generateMockProof (fun s => s) (fun _ => "")
        { complianceStatusHash := "A", gpsLatitude := "1", gpsLongitude := "2",
          farmerWalletHash := "3", nonce := "4", expectedComplianceHash := "B" }
      = Except.error MockError.ConstraintViolation
    ∧ circuitSat (fun _ _ _ _ _ => 0)
        { complianceStatusHash := 1, gpsLatitude := 0, gpsLongitude := 0,
          farmerWalletHash := 0, nonce := 0, expectedComplianceHash := 2,
          complianceCommitment := 0 } = false :=
  ⟨prove_fails_on_status_mismatch.1 _ _ _ (by decide),
   prove_fails_on_status_mismatch.2 _ _ (by decide) (by decide) (by decide)⟩

/-- C2: the claimed equivalence between range-check satisfaction and
in-range coordinates fails on the code.  The positive instances of the
claim do hold (a scaled latitude of 910000 makes the circuit unsatisfiable
and 899999 satisfies it, with consistent status hashes), but the
`LessThan(21)` comparator is applied to `shiftedLat` without first
bit-constraining it, so the field-wrapped encoding of the out-of-range
scaled latitude -910000 (shiftedLat = p - 10000) lands in the accepting
window [p - 297151, p) of `Num2Bits(22)` and the whole circuit is
satisfiable — for every choice of the Poseidon function. -/
theorem range_check_wraparound_at_minus_910000 :
    ∀ H : Nat → Nat → Nat → Nat → Nat → Nat,
      circuitSat H
          { complianceStatusHash := 0, gpsLatitude := toField (-910000),
            gpsLongitude := 0, farmerWalletHash := 0, nonce := 0,
            expectedComplianceHash := 0,
            complianceCommitment := H 0 (toField (-910000)) 0 0 0 % p } = true
      ∧ circuitSat H
          { complianceStatusHash := 0, gpsLatitude := 910000,
            gpsLongitude := 0, farmerWalletHash := 0, nonce := 0,
            expectedComplianceHash := 0,
            complianceCommitment := H 0 910000 0 0 0 % p } = false
      ∧ circuitSat H
          { complianceStatusHash := 0, gpsLatitude := 899999,
            gpsLongitude := 0, farmerWalletHash := 0, nonce := 0,
            expectedComplianceHash := 0,
            complianceCommitment := H 0 899999 0 0 0 % p } = true := by
  intro H
  refine ⟨?_, ?_, ?_⟩ <;>
    · simp only [circuitSat, beq_self_eq_true, Bool.and_true]
      decide

/-- C3: in every satisfying circuit assignment the published commitment
equals the arity-5 hash of exactly the five private witness values in
order; and in the mock backend the commitment is a deterministic function
of the witness — two runs from an identical witness (same nonce included)
differing only in their randomness streams produce the identical
commitment, namely the hash of the five joined witness fields. -/
theorem commitment_binds_witness :
    (∀ (H : Nat → Nat → Nat → Nat → Nat → Nat) (a : CircuitAssignment),
        circuitSat H a = true →
        a.complianceCommitment
          = H a.complianceStatusHash a.gpsLatitude a.gpsLongitude
              a.farmerWalletHash a.nonce % p)
    ∧ (∀ (sha256 : String → String) (rng rng2 : Nat → String) (i : MockInput),
        (generateMockProof sha256 rng i).map MockRun.commitment
          = (generateMockProof sha256 rng2 i).map MockRun.commitment)
    ∧ (∀ (sha256 : String → String) (rng : Nat → String) (i : MockInput)
          (run : MockRun),
        generateMockProof sha256 rng i = Except.ok run →
        run.commitment = mockCommitment sha256 i) := by
  refine ⟨?_, ?_, ?_⟩
  · intro H a hsat
    unfold circuitSat at hsat
    simp only [Bool.and_eq_true, beq_iff_eq] at hsat
    exact hsat.2
  · intro sha256 rng rng2 i
    unfold generateMockProof
    split <;> rfl
  · intro sha256 rng i run h
    exact generateMockProof_ok_commitment h

theorem commitment_binds_witness_witness :
    ((({ complianceStatusHash := 5, gpsLatitude := 0, gpsLongitude := 0,
         farmerWalletHash := 0, nonce := 0, expectedComplianceHash := 5,
         complianceCommitment := 0 } : CircuitAssignment)).complianceCommitment
      = (fun _ _ _ _ _ => 0 : Nat → Nat → Nat → Nat → Nat → Nat) 5 0 0 0 0 % p)
    ∧ ({ proof := mkMockProof (fun _ => "r"),
         publicSignals := ["C", "h"], vkey := mkMockVKey (fun _ => "r"),
         commitment := "C", verified := true } : MockRun).commitment
      = mockCommitment (fun _ => "C")
          { complianceStatusHash := "h", gpsLatitude := "1", gpsLongitude := "2",
            farmerWalletHash := "3", nonce := "4", expectedComplianceHash := "h" } :=
  ⟨commitment_binds_witness.1 (fun _ _ _ _ _ => 0)
      { complianceStatusHash := 5, gpsLatitude := 0, gpsLongitude := 0,
        farmerWalletHash := 0, nonce := 0, expectedComplianceHash := 5,
        complianceCommitment := 0 } (by decide),
   commitment_binds_witness.2.2 (fun _ => "C") (fun _ => "r") _ _ (by rfl)⟩

/-- C4: completeness round-trip against the shipped backend — for every
canonical circuit assignment satisfying all three constraint groups (in
particular status equality), the mock prover accepts the rendered witness
and the verification step of the same run reports true. -/
theorem completeness_round_trip :
    ∀ (H : Nat → Nat → Nat → Nat → Nat → Nat) (a : CircuitAssignment)
      (sha256 : String → String) (rng : Nat → String),
      a.complianceStatusHash < p → a.expectedComplianceHash < p →
      circuitSat H a = true →
      ∃ run : MockRun,
        generateMockProof sha256 rng (mockInputOf a) = Except.ok run
        ∧ run.verified = true := by
  intro H a sha256 rng h1 h2 hsat
  have hstatus := circuitSat_status hsat h1 h2
  have hstr : (mockInputOf a).complianceStatusHash
      = (mockInputOf a).expectedComplianceHash := by
    unfold mockInputOf
    exact congrArg toString hstatus
  unfold generateMockProof
  rw [if_pos hstr]
  exact ⟨_, rfl, by simp⟩

theorem completeness_round_trip_witness :
    ∃ run : MockRun,
      generateMockProof (fun s => s) (fun _ => "")
          (mockInputOf
            { complianceStatusHash := 5, gpsLatitude := 0, gpsLongitude := 0,
              farmerWalletHash := 0, nonce := 0, expectedComplianceHash := 5,
              complianceCommitment := 0 })
        = Except.ok run
      ∧ run.verified = true :=
  completeness_round_trip (fun _ _ _ _ _ => 0) _ _ _
    (by decide) (by decide) (by decide)

/-- C5 counterexample: the claim also requires that verification succeed
only for exactly the `(publicInputs, commitment, verificationKey)` triple
the proof was produced against, but the mock verification step reads none
of the proof, the public-signal list or the key: mutating the public
signals after proof generation (here replacing the published
`expectedComplianceHash` entry by another string) leaves verification
reporting true. -/
theorem verify_ignores_public_inputs_cex :
    mockVerify (fun _ => "C")
        { complianceStatusHash := "h", gpsLatitude := "1", gpsLongitude := "2",
          farmerWalletHash := "3", nonce := "4", expectedComplianceHash := "h" }
        (mkMockProof (fun _ => "r")) ["C", "MUTATED"] (mkMockVKey (fun _ => "r"))
        "C" = true
    ∧ (["C", "MUTATED"] : List String) ≠ ["C", "h"] := by
  constructor
  · rfl
  · decide

/-- C5 (amended): substituting any commitment different from the hash of
the witness preimage makes verification return false; but verification
depends only on the commitment component — it is invariant under changing
the proof object, the public-signal list and the verification key. -/
theorem commitment_substitution_rejected :
    (∀ (sha256 : String → String) (i : MockInput) (prf : MockProof)
        (ps : List String) (vk : MockVKey) (c2 : String),
        c2 ≠ mockCommitment sha256 i →
        mockVerify sha256 i prf ps vk c2 = false)
    ∧ (∀ (sha256 : String → String) (i : MockInput) (prf prf2 : MockProof)
        (ps ps2 : List String) (vk vk2 : MockVKey) (c : String),
        mockVerify sha256 i prf ps vk c = mockVerify sha256 i prf2 ps2 vk2 c) := by
  constructor
  · intro sha256 i prf ps vk c2 hne
    unfold mockVerify
    exact decide_eq_false (fun h => hne h.symm)
  · intro sha256 i prf prf2 ps ps2 vk vk2 c
    rfl

theorem commitment_substitution_rejected_witness :
    mockVerify (fun _ => "C")
        { complianceStatusHash := "h", gpsLatitude := "1", gpsLongitude := "2",
          farmerWalletHash := "3", nonce := "4", expectedComplianceHash := "h" }
        (mkMockProof (fun _ => "r")) ["C", "h"] (mkMockVKey (fun _ => "r"))
        "D" = false :=
  commitment_substitution_rejected.1 (fun _ => "C") _ _ _ _ "D" (by decide)

/-- C6 (modelled from the spec, section 4.5): the per-commitment state
machine of the replay ledger admits exactly one transition.  For every
ledger state and commitments c, c2:
the first redeem of an unseen commitment returns Ok; a second sequential
redeem of the same commitment then returns AlreadyRedeemed; redeem returns
Ok exactly on unseen commitments; a redeemed commitment stays redeemed
across any further redeem (irreversibility); and membership after a redeem
is exactly membership before plus the redeemed commitment, so
Unseen -> Redeemed is the only state change any call performs. -/
theorem replay_redeem_once :
    ∀ (ledger : List String) (c c2 : String),
      ((redeem ledger c).fst = RedeemResult.Ok ↔ c ∉ ledger)
      ∧ (c ∉ ledger →
          (redeem ledger c).fst = RedeemResult.Ok
          ∧ (redeem (redeem ledger c).snd c).fst = RedeemResult.AlreadyRedeemed)
      ∧ (c ∈ ledger → c ∈ (redeem ledger c2).snd)
      ∧ (c ∈ (redeem ledger c2).snd ↔ (c = c2 ∨ c ∈ ledger)) := by
  intro ledger c c2
  refine ⟨?_, ?_, ?_, ?_⟩
  · unfold redeem
    split
    · simp_all
    · simp_all
  · intro hnot
    unfold redeem
    rw [if_neg hnot]
    simp
  · intro hmem
    unfold redeem
    split
    · exact hmem
    · exact List.mem_cons_of_mem _ hmem
  · unfold redeem
    split
    · constructor
      · intro h
        exact Or.inr h
      · rintro (rfl | h)
        · assumption
        · exact h
    · simp [List.mem_cons]

theorem replay_redeem_once_witness :
    (redeem [] "c").fst = RedeemResult.Ok
    ∧ (redeem (redeem [] "c").snd "c").fst = RedeemResult.AlreadyRedeemed
    ∧ "c" ∈ (redeem ["c"] "d").snd :=
  ⟨((replay_redeem_once [] "c" "d").2.1 (by decide)).1,
   ((replay_redeem_once [] "c" "d").2.1 (by decide)).2,
   (replay_redeem_once ["c"] "c" "d").2.2.1 (by decide)⟩

/-- C7 counterexample: rerunning the mock setup with a different
randomness stream yields a distinct verification key, yet a run generated
under the first key verifies as true against the second key — the claim
that verification under a distinct key fails deterministically is false on
the code, because the mock verification step never reads the key. -/
theorem stale_key_accepted_cex :
    mkMockVKey (fun _ => "a") ≠ mkMockVKey (fun _ => "b")
    ∧ mockVerify (fun _ => "C")
        { complianceStatusHash := "h", gpsLatitude := "1", gpsLongitude := "2",
          farmerWalletHash := "3", nonce := "4", expectedComplianceHash := "h" }
        (mkMockProof (fun _ => "a")) ["C", "h"] (mkMockVKey (fun _ => "b"))
        "C" = true := by
  constructor
  · decide
  · rfl

/-- C7 (amended): in the shipped mock backend, verification ignores the
verification key entirely — every successful proof-generation run also
verifies as true against the key produced by any rerun of the setup with
fresh randomness, so a stale or mismatched key is silently accepted rather
than deterministically rejected. -/
theorem stale_key_silently_accepted :
    ∀ (sha256 : String → String) (rng rng2 : Nat → String) (i : MockInput)
      (run : MockRun),
      generateMockProof sha256 rng i = Except.ok run →
      mockVerify sha256 i run.proof run.publicSignals (mkMockVKey rng2)
        run.commitment = true := by
  intro sha256 rng rng2 i run h
  have hc : run.commitment = mockCommitment sha256 i :=
    generateMockProof_ok_commitment h
  unfold mockVerify
  rw [hc]
  exact decide_eq_true rfl

theorem stale_key_silently_accepted_witness :
    mockVerify (fun _ => "C")
        { complianceStatusHash := "h", gpsLatitude := "1", gpsLongitude := "2",
          farmerWalletHash := "3", nonce := "4", expectedComplianceHash := "h" }
        (mkMockProof (fun _ => "a"))
        ["C", "h"]
        (mkMockVKey (fun _ => "b"))
        "C" = true :=
  stale_key_silently_accepted (fun _ => "C") (fun _ => "a") (fun _ => "b")
    { complianceStatusHash := "h", gpsLatitude := "1", gpsLongitude := "2",
      farmerWalletHash := "3", nonce := "4", expectedComplianceHash := "h" }
    { proof := mkMockProof (fun _ => "a"), publicSignals := ["C", "h"],
      vkey := mkMockVKey (fun _ => "a"), commitment := "C", verified := true }
    (by rfl)

/-- C8: the circuit has a single output signal, the commitment; none of
the five private input signals is among the public signals of the compiled
circuit (`component main {public [expectedComplianceHash]}` plus the one
output); and every successful mock run publishes exactly
`[commitment, expectedComplianceHash]` as its public-signal array. -/
theorem public_signals_exclude_private_witness :
    outputSignals = [Signal.complianceCommitment]
    ∧ (privateInputSignals.all fun s => !(publicSignals.contains s)) = true
    ∧ (∀ (sha256 : String → String) (rng : Nat → String) (i : MockInput)
          (run : MockRun),
        generateMockProof sha256 rng i = Except.ok run →
        run.publicSignals = [run.commitment, i.expectedComplianceHash]) := by
  refine ⟨rfl, by decide, ?_⟩
  intro sha256 rng i run h
  unfold generateMockProof at h
  split at h
  · cases h
    rfl
  · cases h

theorem public_signals_exclude_private_witness_witness :
    ({ proof := mkMockProof (fun _ => "r"), publicSignals := ["C", "h"],
       vkey := mkMockVKey (fun _ => "r"), commitment := "C",
       verified := true } : MockRun).publicSignals
      = ["C",
         ({ complianceStatusHash := "h", gpsLatitude := "1", gpsLongitude := "2",
            farmerWalletHash := "3", nonce := "4",
            expectedComplianceHash := "h" } : MockInput).expectedComplianceHash] :=
  public_signals_exclude_private_witness.2.2 (fun _ => "C") (fun _ => "r")
    { complianceStatusHash := "h", gpsLatitude := "1", gpsLongitude := "2",
      farmerWalletHash := "3", nonce := "4", expectedComplianceHash := "h" }
    { proof := mkMockProof (fun _ => "r"), publicSignals := ["C", "h"],
      vkey := mkMockVKey (fun _ => "r"), commitment := "C", verified := true }
    (by rfl)

/-- C9: in the mock backend the reported verification outcome does not
depend on the randomly drawn proof bytes or verification-key bytes — two
runs on the same input with different randomness streams report the same
result — and whenever generation reaches the verification step (a
successful run), the run reports verified = true. -/
theorem mock_verified_independent_of_randomness :
    (∀ (sha256 : String → String) (rng rng2 : Nat → String) (i : MockInput),
        (generateMockProof sha256 rng i).map MockRun.verified
          = (generateMockProof sha256 rng2 i).map MockRun.verified)
    ∧ (∀ (sha256 : String → String) (rng : Nat → String) (i : MockInput)
          (run : MockRun),
        generateMockProof sha256 rng i = Except.ok run →
        run.verified = true) := by
  constructor
  · intro sha256 rng rng2 i
    unfold generateMockProof
    split <;> rfl
  · intro sha256 rng i run h
    unfold generateMockProof at h
    split at h
    · cases h
      simp
    · cases h

theorem mock_verified_independent_of_randomness_witness :
    ({ proof := mkMockProof (fun _ => "r"), publicSignals := ["C", "h"],
       vkey := mkMockVKey (fun _ => "r"), commitment := "C",
       verified := true } : MockRun).verified = true :=
  mock_verified_independent_of_randomness.2 (fun _ => "C") (fun _ => "r")
    { complianceStatusHash := "h", gpsLatitude := "1", gpsLongitude := "2",
      farmerWalletHash := "3", nonce := "4", expectedComplianceHash := "h" }
    { proof := mkMockProof (fun _ => "r"), publicSignals := ["C", "h"],
      vkey := mkMockVKey (fun _ => "r"), commitment := "C", verified := true }
    (by rfl)

/-- C10: whenever the backend call of the submission handler fails (any
caught error), the displayed result is the hard-coded mock compliance
result, whose status is COMPLIANT with confidence 0.94 — the error path
yields a compliant verdict, not an error state. -/
theorem error_path_yields_compliant :
    ∀ (now : String) (useMock : Bool),
      handleSubmit now useMock (Except.error ()) = mockComplianceResult now
      ∧ (mockComplianceResult now).status = ComplianceStatus.COMPLIANT
      ∧ (mockComplianceResult now).confidence = 94 / 100 := by
  intro now useMock
  refine ⟨?_, rfl, rfl⟩
  unfold handleSubmit
  cases useMock <;> rfl

end KisanDepin
